import Mathlib

/-!
Verification development for the CrewAI agent-executor service
(`agent_builder.py`, `data_service.py`, `orchestrator.py`, `main.py`).

The Python code is shallowly embedded: Python values that flow through the
service (JSON blobs, supabase rows, keyword arguments) are modelled by the
`PyVal` type below; Python dicts are association lists; functions that can
raise are embedded with `Except String` carrying the exception text; the
external collaborators (the supabase store, the `requests` HTTP library,
Python's `json.loads` and the crewai agent runtime) are passed in as explicit
parameters or environment fields.  All embedded definitions are computable so
that theorems can be checked on concrete inputs.
-/

/-- Model of a Python runtime value as it appears in this service: strings,
numbers, booleans, `None`, JSON-style lists, and dicts (as association
lists with unique keys, preserving insertion order like Python dicts). -/
inductive PyVal where
  | str (s : String)
  | int (n : Int)
  | bool (b : Bool)
  | none
  | list (xs : List PyVal)
  | dict (fields : List (String × PyVal))

/-- Python dict of string keys, used for supabase rows and JSON objects. -/
abbrev PyDict := List (String × PyVal)

/-- Python truthiness (`bool(value)`): empty strings, empty containers,
zero and `None` are falsy. -/
def pyTruthy : PyVal → Bool
  | .str s => s ≠ ""
  | .int n => n ≠ 0
  | .bool b => b
  | .none => false
  | .list xs => !xs.isEmpty
  | .dict fs => !fs.isEmpty

/-- First-match association lookup, the model of Python dict indexing. -/
def assocFind : List (String × PyVal) → String → Option PyVal
  | [], _ => Option.none
  | (k, v) :: rest, x => if k = x then Option.some v else assocFind rest x

/-- Model of `d.get(key, default)` on a Python dict. -/
def pyGetD (d : PyDict) (k : String) (default : PyVal) : PyVal :=
  match assocFind d k with
  | Option.some v => v
  | Option.none => default

/-- Model of `d[key]` on a Python dict: raises `KeyError` when absent. -/
def pyItem (d : PyDict) (k : String) : Except String PyVal :=
  match assocFind d k with
  | Option.some v => Except.ok v
  | Option.none => Except.error ("KeyError: " ++ k)

/-- Model of `value.get(key)` on an arbitrary Python value: succeeds (with
`None` default) when the receiver is a dict, otherwise raises
`AttributeError` just as Python does for non-dict receivers. -/
def pyAttrGet (v : PyVal) (k : String) : Except String PyVal :=
  match v with
  | .dict fs => Except.ok (pyGetD fs k .none)
  | _ => Except.error ("AttributeError: object has no attribute get (" ++ k ++ ")")

/-- Model of whether a Python dict contains a key (`key in d`). -/
def pyHasKey (d : PyDict) (k : String) : Bool :=
  (assocFind d k).isSome

mutual
/-- Model of Python `repr` for the values above (single-quoted strings,
`True`/`False`/`None`, bracketed containers), as used by f-string
interpolation of containers. -/
def pyRepr : PyVal → String
  | .str s => "\x27" ++ s ++ "\x27"
  | .int n => toString n
  | .bool true => "True"
  | .bool false => "False"
  | .none => "None"
  | .list xs => "[" ++ pyReprList xs ++ "]"
  | .dict fs => "\x7b" ++ pyReprFields fs ++ "\x7d"

/-- Comma-separated `repr` of list elements. -/
def pyReprList : List PyVal → String
  | [] => ""
  | [x] => pyRepr x
  | x :: rest => pyRepr x ++ ", " ++ pyReprList rest

/-- Comma-separated `repr` of dict entries. -/
def pyReprFields : List (String × PyVal) → String
  | [] => ""
  | [(k, v)] => "\x27" ++ k ++ "\x27: " ++ pyRepr v
  | (k, v) :: rest => "\x27" ++ k ++ "\x27: " ++ pyRepr v ++ ", " ++ pyReprFields rest
end

/-- Model of Python `str(value)` as used in f-strings: strings render
verbatim, containers and other values render via `repr`. -/
def pyStr : PyVal → String
  | .str s => s
  | v => pyRepr v

/-- Comparison of a Python value against a string literal (`value == "s"`);
false for non-string values, as Python equality is. -/
def isStrEq (v : PyVal) (s : String) : Bool :=
  match v with
  | .str t => t = s
  | _ => false

/-- Model of Python's `str.lower` as a character map (the service's sentinel
comparisons only involve ASCII). -/
def pyLower (s : String) : String := String.mk (s.data.map Char.toLower)

/-- Embedding of `data_service.safe_json_load`.  The Python body runs, inside
one `try`, `if not value or value.lower() in ["none", "null", ""]` first;
`value.lower()` raises `AttributeError` for every non-string value, which the
handler converts to `{}`.  Hence the `isinstance(value, dict)` branch that
returns the input mapping is unreachable for non-empty dicts, and every
non-string input yields the empty dict.  Strings are lower-compared against
the sentinel spellings and otherwise parsed with `json.loads`, modelled by
the explicit `jsonLoads` collaborator; a parse failure is caught and yields
the empty dict.  The embedding is total: no input raises. -/
def safe_json_load (jsonLoads : String → Except Unit PyVal) (value : PyVal) : PyVal :=
  match value with
  | .str s =>
    if s = "" then .dict []
    else if pyLower s = "none" ∨ pyLower s = "null" then .dict []
    else
      match jsonLoads s with
      | Except.ok v => v
      | Except.error _ => .dict []
  | _ => .dict []

/-! ## Placeholder scanning (`DynamicAPICallTool._replace_variables`) -/

/-- Word characters of the regex `\w` in `re.sub(r'\{(\w+)\}', ...)`,
modelled for the ASCII range the service's templates use. -/
def isWordChar (c : Char) : Bool := c.isAlphanum || c = '_'

/-- First-match lookup in a name-to-value binding list, the model of
the Python dict membership-then-index pattern used by the replacer. -/
def lookupAssoc : List (String × String) → String → Option String
  | [], _ => Option.none
  | (k, v) :: rest, x => if k = x then Option.some v else lookupAssoc rest x

/-- Embedding of the `replacer` closure of `_replace_variables`: the
call-time `variable_mappings` are consulted first, the tool's
`user_variables` second; an unbound name yields no replacement. -/
def replacerLookup (m u : List (String × String)) (x : String) : Option String :=
  match lookupAssoc m x with
  | Option.some v => Option.some v
  | Option.none => lookupAssoc u x

/-- Embedding of `re.sub(r'\{(\w+)\}', replacer, text)` over the character
list of `text`: scan left to right; at a `'\x7b'` try to read one or more
word characters followed by `'\x7d'`; on a match, substitute the bound value
or (for an unbound name) emit the matched text unchanged; otherwise emit the
character and continue at the next position. -/
def replaceVarsAux (m u : List (String × String)) : List Char → List Char
  | [] => []
  | c :: rest =>
    if c = '{' then
      if h : rest.takeWhile isWordChar ≠ [] ∧
          (rest.dropWhile isWordChar).head? = Option.some '}' then
        match replacerLookup m u (String.mk (rest.takeWhile isWordChar)) with
        | Option.some v =>
          v.data ++ replaceVarsAux m u (rest.dropWhile isWordChar).tail
        | Option.none =>
          c :: (rest.takeWhile isWordChar ++ '}' ::
            replaceVarsAux m u (rest.dropWhile isWordChar).tail)
      else c :: replaceVarsAux m u rest
    else c :: replaceVarsAux m u rest
termination_by cs => cs.length
decreasing_by
  all_goals simp only [List.length_cons]
  all_goals
    first
    | omega
    | (have hle : ∀ (l : List Char), (l.dropWhile isWordChar).length ≤ l.length := by
         intro l
         induction l with
         | nil => simp [List.dropWhile]
         | cons a l ih =>
           cases hpa : isWordChar a <;> simp [List.dropWhile, hpa] <;> omega
       have hne : rest.dropWhile isWordChar ≠ [] := by
         intro hnil
         rw [hnil] at h
         exact absurd h.2 (by simp)
       have h1 := hle rest
       have h2 := List.length_tail (rest.dropWhile isWordChar)
       have h3 : 0 < (rest.dropWhile isWordChar).length := List.length_pos.mpr hne
       omega)

/-- Embedding of `DynamicAPICallTool._replace_variables` on strings. -/
def replace_variables (m u : List (String × String)) (text : String) : String :=
  String.mk (replaceVarsAux m u text.data)

/-- Decision procedure for whether a character list contains a
`\x7b\w+\x7d` placeholder token, mirroring the scan of `replaceVarsAux`. -/
def hasPlaceholderToken : List Char → Bool
  | [] => false
  | c :: rest =>
    if c = '{' ∧ rest.takeWhile isWordChar ≠ [] ∧
        (rest.dropWhile isWordChar).head? = Option.some '}' then true
    else hasPlaceholderToken rest

/-- Containment tests `'\x7b' in value` and `'\x7d' in value` guarding the
string branch of `_resolve_placeholders`. -/
def hasLB (s : String) : Bool := s.data.contains '{'

/-- Right-brace containment test of the same guard. -/
def hasRB (s : String) : Bool := s.data.contains '}'

mutual
/-- Embedding of `DynamicAPICallTool._resolve_placeholders`: a non-dict
input passes through unchanged; a dict is rebuilt key by key, replacing
placeholders in string values that contain both braces, recursing into dict
values, and passing every other value (including lists) through unchanged. -/
def resolve_placeholders (m u : List (String × String)) : PyVal → PyVal
  | .dict fields => .dict (resolve_fields m u fields)
  | v => v

/-- Per-entry traversal of the dict items in `_resolve_placeholders`. -/
def resolve_fields (m u : List (String × String)) : List (String × PyVal) → List (String × PyVal)
  | [] => []
  | (k, .str s) :: rest =>
    (k, if hasLB s ∧ hasRB s then .str (replace_variables m u s) else .str s) ::
      resolve_fields m u rest
  | (k, .dict f) :: rest =>
    (k, resolve_placeholders m u (.dict f)) :: resolve_fields m u rest
  | (k, v) :: rest => (k, v) :: resolve_fields m u rest
end

/-! ## Variable classification and context (`build_variable_context`) -/

/-- Resolution-strategy buckets used by `build_variable_context` to partition
the other-variables. -/
inductive VarBucket where
  | contextual
  | direct_input
  | tool_dependency
deriving DecidableEq

/-- Fields of a Python dict value, used where the source has already
established (via a successful `.get`) that the receiver is a dict. -/
def pyFields : PyVal → List (String × PyVal)
  | .dict fs => fs
  | _ => []

/-- Model of `d[key]` on an arbitrary Python value: item access on a dict,
`TypeError` otherwise. -/
def pyItemV (v : PyVal) (k : String) : Except String PyVal :=
  match v with
  | .dict fs => pyItem fs k
  | _ => Except.error ("TypeError: value is not subscriptable (" ++ k ++ ")")

/-- Model of `value.get(key, default)` where the source guards the receiver
to be a dict beforehand. -/
def pyGetDV (v : PyVal) (k : String) (default : PyVal) : PyVal :=
  pyGetD (pyFields v) k default

/-- Embedding of the classification loop of `build_variable_context`
(agent_builder.py lines 138-154): `var.get('variable_type', 'contextual')`
defaults an absent tag to `'contextual'`; the three recognised tag strings
pick their bucket directly; any other present value (for example a null tag)
falls back to detection from the loaded payload by truthiness of its
`tool_dependency`, then `extraction_hint` entries. -/
def classify_other_variable (jsonLoads : String → Except Unit PyVal)
    (var : PyDict) : Except String VarBucket :=
  let var_type := pyGetD var "variable_type" (.str "contextual")
  if isStrEq var_type "contextual" then Except.ok .contextual
  else if isStrEq var_type "direct_input" then Except.ok .direct_input
  else if isStrEq var_type "tool_dependency" then Except.ok .tool_dependency
  else
    let variables_data := safe_json_load jsonLoads (pyGetD var "variables" (.dict []))
    match pyAttrGet variables_data "tool_dependency" with
    | Except.error e => Except.error e
    | Except.ok td =>
      if pyTruthy td then Except.ok .tool_dependency
      else
        match pyAttrGet variables_data "extraction_hint" with
        | Except.error e => Except.error e
        | Except.ok eh =>
          if pyTruthy eh then Except.ok .direct_input
          else Except.ok .contextual

/-- Shared `Variable:`/`Description:`/`Data Type:` lines rendered at the top
of each per-variable block, with Python's `KeyError` on missing keys. -/
def render_var_header (var : PyDict) : Except String String := do
  let name ← pyItem var "name"
  let desc ← pyItem var "description"
  let dt ← pyItem var "data_type"
  return "Variable: " ++ pyStr name ++ "\n" ++
    "Description: " ++ pyStr desc ++ "\n" ++
    "Data Type: " ++ pyStr dt ++ "\n"

/-- Rendering of the `'key' (for value)` option list of a CONTEXTUAL
variable, skipping the reserved `tool_dependency`, `instruction` and
`extraction_hint` keys. -/
def optionsText (v : PyVal) : String :=
  String.intercalate ", "
    (((pyFields v).filter (fun kv =>
        !(kv.1 == "tool_dependency" || kv.1 == "instruction" || kv.1 == "extraction_hint"))).map
      (fun kv => "\x27" ++ kv.1 ++ "\x27 (for " ++ pyStr kv.2 ++ ")"))

/-- Embedding of the TYPE 2 (contextual) block of `build_variable_context`;
the option lines are emitted only when the loaded payload is truthy and has
neither a truthy `tool_dependency` nor a truthy `extraction_hint` entry,
with the same short-circuit evaluation (and hence exception order) as the
Python conjunction. -/
def render_contextual (jsonLoads : String → Except Unit PyVal)
    (var : PyDict) : Except String String := do
  let head ← render_var_header var
  let variables_data := safe_json_load jsonLoads (pyGetD var "variables" (.dict []))
  if pyTruthy variables_data then
    let td ← pyAttrGet variables_data "tool_dependency"
    if pyTruthy td then
      return head ++ "\n"
    else
      let eh ← pyAttrGet variables_data "extraction_hint"
      if pyTruthy eh then
        return head ++ "\n"
      else
        let name ← pyItem var "name"
        return head ++ "Available options: " ++ optionsText variables_data ++ "\n" ++
          "Usage: Choose appropriate option and pass as \x7b\x27" ++ pyStr name ++
            "\x27: \x27chosen_key\x27\x7d\n" ++ "\n"
  else
    return head ++ "\n"

/-- Embedding of the TYPE 3 (direct input) block of
`build_variable_context`. -/
def render_direct (jsonLoads : String → Except Unit PyVal)
    (var : PyDict) : Except String String := do
  let head ← render_var_header var
  let variables_data := safe_json_load jsonLoads (pyGetD var "variables" (.dict []))
  let eh ← pyAttrGet variables_data "extraction_hint"
  let hintLine ←
    if pyTruthy eh then do
      let hv ← pyItemV variables_data "extraction_hint"
      pure ("Extraction Hint: " ++ pyStr hv ++ "\n")
    else pure ""
  let name ← pyItem var "name"
  return head ++ hintLine ++
    "Usage: Extract value from user request and pass as \x7b\x27" ++ pyStr name ++
      "\x27: \x27extracted_value\x27\x7d\n" ++
    "Example: User says \x27buy 10 shares\x27 → pass \x7b\x27" ++ pyStr name ++
      "\x27: \x2710\x27\x7d\n" ++ "\n"

/-- Embedding of the TYPE 4 (tool dependency) block of
`build_variable_context`. -/
def render_tool_dep (jsonLoads : String → Except Unit PyVal)
    (var : PyDict) : Except String String := do
  let head ← render_var_header var
  let variables_data := safe_json_load jsonLoads (pyGetD var "variables" (.dict []))
  let td ← pyAttrGet variables_data "tool_dependency"
  let depLines ←
    if pyTruthy td then do
      let dv ← pyItemV variables_data "tool_dependency"
      let inst := pyGetDV variables_data "instruction"
        (.str "Use the specified tool to get this value")
      pure ("Tool Dependency: " ++ pyStr dv ++ "\n" ++
        "Instructions: " ++ pyStr inst ++ "\n")
    else pure ""
  let name ← pyItem var "name"
  return head ++ depLines ++
    "Usage: Call dependency tool first, then pass result as \x7b\x27" ++ pyStr name ++
      "\x27: \x27tool_result\x27\x7d\n" ++ "\n"

/-- Fixed opening lines of the variable context. -/
def variable_context_header : String :=
  "\n\nDYNAMIC VARIABLES CONTEXT:\n" ++
  "When making API calls, you may encounter placeholders that need dynamic values. There are multiple types:\n\n" ++
  "IMPORTANT: When calling tools with dynamic variables, pass them using variable_mappings parameter.\n" ++
  "Example: tool_name(variable_mappings=\x7b\x27city_id\x27: \x27BLR\x27, \x27quantity\x27: \x275\x27\x7d)\n\n"

/-- Fixed execution-strategy footer of the variable context. -/
def execution_strategy_footer : String :=
  "EXECUTION STRATEGY:\n" ++
  "1. TYPE 2 (Contextual): Choose from predefined options based on user request\n" ++
  "2. TYPE 3 (Direct Input): Extract numeric/text values directly from user prompt\n" ++
  "3. TYPE 4 (Tool Dependency): Call specified tools first to get values\n" ++
  "4. Always pass resolved values using variable_mappings parameter\n" ++
  "5. Example: weather_api(variable_mappings=\x7b\x27city_id\x27: \x27BLR\x27, \x27quantity\x27: \x275\x27, \x27token\x27: \x27xyz123\x27\x7d)\n"

/-- Embedding of `build_variable_context`: the empty list short-circuits to
the empty string; otherwise every variable is classified in order (the first
classification exception aborts, as in the Python loop), the three buckets
are rendered in the fixed TYPE 2, TYPE 3, TYPE 4 order with each section
omitted when its bucket is empty, and the fixed header and footer wrap the
sections. -/
def build_variable_context (jsonLoads : String → Except Unit PyVal)
    (other_variables : List PyDict) : Except String String :=
  match other_variables with
  | [] => Except.ok ""
  | _ => do
    let tagged ← other_variables.mapM (fun v => do
      let b ← classify_other_variable jsonLoads v
      pure (b, v))
    let contextual_vars := (tagged.filter (fun bv => bv.1 == VarBucket.contextual)).map (·.2)
    let direct_input_vars := (tagged.filter (fun bv => bv.1 == VarBucket.direct_input)).map (·.2)
    let tool_dependency_vars :=
      (tagged.filter (fun bv => bv.1 == VarBucket.tool_dependency)).map (·.2)
    let ctxBodies ← contextual_vars.mapM (render_contextual jsonLoads)
    let dirBodies ← direct_input_vars.mapM (render_direct jsonLoads)
    let depBodies ← tool_dependency_vars.mapM (render_tool_dep jsonLoads)
    let ctxSection := if contextual_vars.isEmpty then "" else
      "TYPE 2 - CONTEXTUAL VARIABLES (Choose from predefined options):\n" ++ String.join ctxBodies
    let dirSection := if direct_input_vars.isEmpty then "" else
      "TYPE 3 - DIRECT INPUT VARIABLES (Extract from user request):\n" ++ String.join dirBodies
    let depSection := if tool_dependency_vars.isEmpty then "" else
      "TYPE 4 - TOOL DEPENDENCY VARIABLES (Call other tools first):\n" ++ String.join depBodies
    return variable_context_header ++ ctxSection ++ dirSection ++ depSection ++
      execution_strategy_footer

/-! ## Dynamic tool construction (`DynamicAPICallTool`, `build_tools_from_metadata`) -/

/-- Fixed first line that `_enhance_description` appends before any
per-variable option line. -/
def dynamic_variables_header : String :=
  "\n\nDYNAMIC VARIABLES: When using this tool, you may need to resolve these variables:\n"

/-- Rendering of `list(var_data.keys())` inside the f-string of
`_enhance_description` (the Python `repr` of a list of strings). -/
def keysRepr (v : PyVal) : String :=
  "[" ++ String.intercalate ", " ((pyFields v).map (fun kv => "\x27" ++ kv.1 ++ "\x27")) ++ "]"

/-- Embedding of `DynamicAPICallTool._enhance_description`, run once at tool
construction: with a non-empty other-variable list, each variable whose
loaded payload is truthy and whose payload's `tool_dependency` entry is not
truthy contributes a `- name: Choose from [...]` line (the `variable_type`
tag is never consulted); the header plus lines are appended only when at
least one line was produced. -/
def enhance_step (jsonLoads : String → Except Unit PyVal) (acc : String)
    (var : PyDict) : Except String String := do
  let var_data := safe_json_load jsonLoads (pyGetD var "variables" (.dict []))
  if pyTruthy var_data then do
    let td ← pyAttrGet var_data "tool_dependency"
    if pyTruthy td then pure acc
    else do
      let name ← pyItem var "name"
      pure (acc ++ "- " ++ pyStr name ++ ": Choose from " ++ keysRepr var_data ++
        " based on user request\n")
  else pure acc

/-- Loop of `_enhance_description` over the other-variables, folding the
`enhance_step` accumulation from the fixed header, finished by the
append-only-if-anything-was-added comparison. -/
def enhance_description (jsonLoads : String → Except Unit PyVal)
    (description : String) (other_variables : List PyDict) : Except String String :=
  if other_variables.isEmpty then Except.ok description
  else do
    let var_info ← other_variables.foldlM (enhance_step jsonLoads) dynamic_variables_header
    if var_info = dynamic_variables_header then Except.ok description
    else Except.ok (description ++ var_info)

/-- Model of a constructed `DynamicAPICallTool` instance: the pydantic field
bag after `__init__` ran (so `description` is already enhanced). -/
structure DynTool where
  name : String
  description : String
  endpoint_url : String
  http_method : String
  headers : PyVal
  query_params : PyVal
  body : PyVal
  user_variables : List (String × String)
  other_variables : List PyDict

/-- Model of a pydantic string-field coercion: the constructor raises a
validation error when a non-string value is supplied for a `str` field. -/
def asStr (v : PyVal) : Except String String :=
  match v with
  | .str s => Except.ok s
  | _ => Except.error "ValidationError: str expected"

/-- Embedding of one iteration of `build_tools_from_metadata` plus
`DynamicAPICallTool.__init__`: headers/params/body pass through
`safe_json_load`, the identity fields are read from the metadata row
(`tool_description` defaulting to `"No description"`), and the description
is enhanced at construction time. -/
def build_tool (jsonLoads : String → Except Unit PyVal) (tool_data : PyDict)
    (user_variables : List (String × String)) (other_variables : List PyDict) :
    Except String DynTool := do
  let headers := safe_json_load jsonLoads (pyGetD tool_data "headers" .none)
  let params := safe_json_load jsonLoads (pyGetD tool_data "query_params" .none)
  let body := safe_json_load jsonLoads (pyGetD tool_data "body" .none)
  let nameV ← pyItem tool_data "name"
  let name ← asStr nameV
  let desc ← asStr (pyGetD tool_data "tool_description" (.str "No description"))
  let urlV ← pyItem tool_data "endpoint_url"
  let url ← asStr urlV
  let methodV ← pyItem tool_data "http_method"
  let method ← asStr methodV
  let description ← enhance_description jsonLoads desc other_variables
  return { name := name, description := description, endpoint_url := url,
           http_method := method, headers := headers, query_params := params,
           body := body, user_variables := user_variables,
           other_variables := other_variables }

/-- Embedding of `build_tools_from_metadata`: one fresh tool per metadata
row, in order, aborting on the first construction exception. -/
def build_tools_from_metadata (jsonLoads : String → Except Unit PyVal) :
    List PyDict → List (String × String) → List PyDict → Except String (List DynTool)
  | [], _, _ => Except.ok []
  | td :: rest, uv, ovs =>
    match build_tool jsonLoads td uv ovs with
    | Except.error e => Except.error e
    | Except.ok t =>
      match build_tools_from_metadata jsonLoads rest uv ovs with
      | Except.error e => Except.error e
      | Except.ok ts => Except.ok (t :: ts)

/-! ## Tool invocation (`DynamicAPICallTool._run`) -/

/-- Response object of the external `requests` library: final status code
and body text. -/
structure HttpResponse where
  status_code : Nat
  text : String

/-- Request shape assembled by `_run` and handed to `requests.request`:
for POST/PUT/PATCH the resolved body travels as the JSON payload, for every
other method as form data. -/
structure HttpRequest where
  method : String
  url : String
  headers : PyVal
  params : PyVal
  jsonBody : Option PyVal
  dataBody : Option PyVal

/-- Model of `self.headers or \x7b\x7d`: a falsy template is replaced by the
empty dict before resolution. -/
def pyOrDict (v : PyVal) : PyVal := if pyTruthy v then v else .dict []

/-- Membership of the method in the mutating set of `_run`. -/
def isMutating (method : String) : Bool :=
  method == "POST" || method == "PUT" || method == "PATCH"

/-- Modelled from the external `requests` library:
`Response.raise_for_status` raises `HTTPError` exactly for final status
codes in 400-499 (client error) and 500-599 (server error); every other
status, including 3xx, returns normally. -/
def raise_for_status (resp : HttpResponse) : Except String HttpResponse :=
  if 400 ≤ resp.status_code ∧ resp.status_code < 500 then
    Except.error (toString resp.status_code ++ " Client Error")
  else if 500 ≤ resp.status_code ∧ resp.status_code < 600 then
    Except.error (toString resp.status_code ++ " Server Error")
  else Except.ok resp

/-- Request assembly of `_run`: headers, query params and body are resolved
through `_resolve_placeholders` with the call-time `variable_mappings` as
primary bindings and the tool's stored `user_variables` as fallback, and the
method is upper-cased before the mutating/non-mutating split. -/
def toolRequest (tool : DynTool) (variable_mappings : List (String × String)) : HttpRequest :=
  let headers := resolve_placeholders variable_mappings tool.user_variables (pyOrDict tool.headers)
  let params := resolve_placeholders variable_mappings tool.user_variables (pyOrDict tool.query_params)
  let data := resolve_placeholders variable_mappings tool.user_variables (pyOrDict tool.body)
  let method := tool.http_method.toUpper
  { method := method, url := tool.endpoint_url, headers := headers, params := params,
    jsonBody := if isMutating method then Option.some data else Option.none,
    dataBody := if isMutating method then Option.none else Option.some data }

/-- Embedding of `DynamicAPICallTool._run`.  The keyword-argument bag is
modelled by its one consulted entry, `variable_mappings` (popped with an
empty-dict default; every other keyword argument is ignored by the source).
The HTTP transport is the explicit `http` collaborator; a transport
exception or a `raise_for_status` exception is caught by the enclosing
`try`/`except` and rendered as the `"API call failed: "` string.  The
embedding is a total function into `String`: no invocation raises. -/
def run_tool (http : HttpRequest → Except String HttpResponse) (tool : DynTool)
    (variable_mappings : List (String × String)) : String :=
  match http (toolRequest tool variable_mappings) with
  | Except.error e => "API call failed: " ++ e
  | Except.ok resp =>
    match raise_for_status resp with
    | Except.error e => "API call failed: " ++ e
    | Except.ok r => r.text

/-! ## Agent assembly (`build_agent_from_metadata`) -/

/-- Result of `fetch_agent_metadata` after its field extraction: identity
strings plus the agent's available tool ids. -/
structure AgentData where
  role : String
  goal : String
  backstory : String
  tools : List String

/-- Model of the constructed crewai `Agent`, restricted to the fields this
service computes (the LLM configuration record is passed through to the
external runtime unchanged and is not modelled). -/
structure Agent where
  role : String
  goal : String
  backstory : String
  tools : List DynTool

/-- Environment of one build: the per-request results of the store
collaborator (each fetch already reflects `data_service`'s degrade-to-default
error handling) plus the `json.loads` collaborator. -/
structure BuildEnv where
  jsonLoads : String → Except Unit PyVal
  agent_metadata : Except String AgentData
  user_variables : List (String × String)
  other_variables : List PyDict
  task_instructions : String
  task_tool_selection : Option (List String)
  tools_metadata : List String → List PyDict

/-- Modelled from the spec: `fetch_task_instructions` is imported from the
data service but absent from the sources; §4.4 describes it as fetching the
task-specific instruction text, so it is modelled as the environment's
per-request instruction string (empty when the task has none). -/
def fetch_task_instructions (env : BuildEnv) (_task_id : String) : String :=
  env.task_instructions

/-- Modelled from the spec: `resolve_final_tool_ids` is imported from the
data service but absent from the sources; §4.4 specifies that a task-level
tool selection, if present, restricts to the agent's available set, and that
otherwise the agent's full available set is used. -/
def resolve_final_tool_ids (task_tool_selection : Option (List String))
    (agent_available_tools : List String) : List String :=
  match task_tool_selection with
  | Option.some sel => sel.filter (fun t => agent_available_tools.contains t)
  | Option.none => agent_available_tools

/-- Embedding of `build_agent_from_metadata` (two-parameter body): fetch the
identity and variable data, resolve the final tool ids, build fresh tools,
compose the enhanced backstory as identity backstory ++ variable context ++
task instructions (the task section prefixed by its fixed banner and omitted
for empty instructions), and construct the agent. -/
def build_agent_from_metadata (env : BuildEnv) (task_id _agent_id : String) :
    Except String Agent :=
  match env.agent_metadata with
  | Except.error e => Except.error e
  | Except.ok agent_data =>
    let task_instructions := fetch_task_instructions env task_id
    let final_tool_ids := resolve_final_tool_ids env.task_tool_selection agent_data.tools
    let tool_data_list := env.tools_metadata final_tool_ids
    match build_tools_from_metadata env.jsonLoads tool_data_list
        env.user_variables env.other_variables with
    | Except.error e => Except.error e
    | Except.ok tools =>
      match build_variable_context env.jsonLoads env.other_variables with
      | Except.error e => Except.error e
      | Except.ok variable_context =>
        let task_context :=
          if task_instructions ≠ "" then "\n\nTASK INSTRUCTIONS:\n" ++ task_instructions
          else ""
        Except.ok
          { role := agent_data.role, goal := agent_data.goal,
            backstory := agent_data.backstory ++ variable_context ++ task_context,
            tools := tools }

/-- Text of the `TypeError` Python raises when `build_agent_from_metadata`
is called with a single positional argument. -/
def arityErrorMsg : String :=
  "TypeError: build_agent_from_metadata() missing 1 required positional argument: \x27agent_id\x27"

/-- Model of the Python call `build_agent_from_metadata(...)` with an
argument list: the function's signature requires the two positional
parameters `(task_id, agent_id)`, so any other arity raises `TypeError`
before the body runs.  `orchestrator.execute_agent_task` invokes it as
`build_agent_from_metadata(agent_id)`, a one-element argument list. -/
def call_build_agent_from_metadata (env : BuildEnv) (args : List String) :
    Except String Agent :=
  match args with
  | [task_id, agent_id] => build_agent_from_metadata env task_id agent_id
  | _ => Except.error arityErrorMsg

/-! ## Orchestration (`execute_agent_task`) and the chat-turn store -/

/-- Row of the `s_agentchats` table: the prompt is written at insert time and
the response is filled in by a later update. -/
structure ChatRow where
  id : Nat
  task_id : String
  agent_id : String
  agent_prompt : String
  response : Option String

/-- Store state: chat rows in creation order plus the next fresh row id. -/
structure Store where
  chats : List ChatRow
  nextId : Nat

/-- Chat message replayed to the agent runtime. -/
structure Message where
  role : String
  content : String

/-- Input handed to `agent.kickoff`: the bare prompt string when no history
exists, otherwise the message list. -/
inductive AgentInput where
  | single (prompt : String)
  | history (messages : List Message)

/-- Observable events of one request, in order of occurrence, used to state
the temporal claims about the chat-turn lifecycle. -/
inductive Event where
  | prompt_inserted (chat_id : Nat)
  | agent_built
  | runtime_invoked
  | response_updated (chat_id : Nat) (response : String)

/-- Recogniser of response-update events. -/
def isResponseUpdate : Event → Bool
  | .response_updated _ _ => true
  | _ => false

/-- Orchestration environment: the build environment plus the outcome flags
of the store operations (the store collaborator may fail any call) and the
external agent runtime. -/
structure OrchEnv where
  build : BuildEnv
  insertFails : Bool
  insertErrMsg : String
  historyFails : Bool
  kickoff : Agent → AgentInput → Except String String
  updateSuccessFails : Bool
  updateSuccessErrMsg : String
  updateFailureFails : Bool

/-- Row freshly written by `insert_agent_prompt`: the prompt is stored and
the response column is still null. -/
def inserted_row (st : Store) (task_id agent_id agent_prompt : String) : ChatRow :=
  { id := st.nextId, task_id := task_id, agent_id := agent_id,
    agent_prompt := agent_prompt, response := Option.none }

/-- Row annotated with a response by a later `update_agent_response`. -/
def responded_row (st : Store) (task_id agent_id agent_prompt msg : String) : ChatRow :=
  { inserted_row st task_id agent_id agent_prompt with response := Option.some msg }

/-- Embedding of `data_service.insert_agent_prompt`: on store success a new
row holding the prompt (and no response yet) is appended and its id
returned; a store failure is re-raised as the 500 `HTTPException` whose
detail is modelled by the message string. -/
def insert_agent_prompt (fails : Bool) (errMsg : String) (st : Store)
    (task_id agent_id agent_prompt : String) : Except String (Nat × Store) :=
  if fails then Except.error ("Error inserting agent prompt: " ++ errMsg)
  else
    Except.ok (st.nextId,
      { chats := st.chats ++ [inserted_row st task_id agent_id agent_prompt],
        nextId := st.nextId + 1 })

/-- Embedding of `data_service.update_agent_response`: sets the response of
the row with the given id, or raises the 500 `HTTPException` on store
failure. -/
def update_agent_response (fails : Bool) (errMsg : String) (st : Store)
    (chat_id : Nat) (response : String) : Except String Store :=
  if fails then Except.error ("Error updating agent response: " ++ errMsg)
  else Except.ok { st with chats := st.chats.map (fun r =>
    if r.id = chat_id then { r with response := Option.some response } else r) }

/-- Messages contributed by one chat row in `fetch_agent_chat_history`: a
truthy prompt yields a user message, a truthy response an assistant
message. -/
def chat_messages_of_row (r : ChatRow) : List Message :=
  (if r.agent_prompt ≠ "" then [{ role := "user", content := r.agent_prompt }] else []) ++
  (match r.response with
   | Option.some resp => if resp ≠ "" then [{ role := "assistant", content := resp }] else []
   | Option.none => [])

/-- Embedding of `data_service.fetch_agent_chat_history`: rows of the task in
creation order, flattened to messages; any store failure degrades to the
empty history with a logged warning. -/
def fetch_agent_chat_history (fails : Bool) (st : Store) (task_id : String) :
    List Message :=
  if fails then []
  else ((st.chats.filter (fun r => r.task_id == task_id)).map chat_messages_of_row).flatten

/-- Failure-path annotation of `execute_agent_task`: the best-effort
`update_agent_response(chat_id, "Error: " + error_msg)` whose own failure is
swallowed by the bare `except: pass`. -/
def record_failure (updateFailureFails : Bool) (st : Store) (chat_id : Nat)
    (error_msg : String) : Store × List Event :=
  match update_agent_response updateFailureFails "" st chat_id ("Error: " ++ error_msg) with
  | Except.ok st' => (st', [Event.response_updated chat_id ("Error: " ++ error_msg)])
  | Except.error _ => (st, [])

/-- Outcome of one `/execute-agent` request: the success payload
`\x7bsuccess: true, response, chat_id\x7d` or the raised `HTTPException`. -/
inductive ExecOutcome where
  | success (response : String) (chat_id : Nat)
  | httpError (status : Nat) (detail : String)

/-- Embedding of `orchestrator.execute_agent_task`: insert the prompt (an
insert failure propagates with no turn to annotate), call
`build_agent_from_metadata(agent_id)` — note the single-argument call
against the two-parameter signature — fetch the history (which already
contains the just-inserted prompt row), kick off the runtime, and update the
turn with the answer; any exception after the insert is recorded
best-effort against the turn as `"Error: Agent execution error: ..."` and
re-raised as a 500.  Returns the outcome, the final store, and the event
trace in order of occurrence. -/
def execute_agent_task (env : OrchEnv) (st0 : Store)
    (task_id agent_id agent_prompt : String) : ExecOutcome × Store × List Event :=
  match insert_agent_prompt env.insertFails env.insertErrMsg st0 task_id agent_id agent_prompt with
  | Except.error msg => (ExecOutcome.httpError 500 ("Agent execution error: " ++ msg), st0, [])
  | Except.ok (chat_id, st1) =>
    match call_build_agent_from_metadata env.build [agent_id] with
    | Except.error msg =>
      let em := "Agent execution error: " ++ msg
      let res := record_failure env.updateFailureFails st1 chat_id em
      (ExecOutcome.httpError 500 em, res.1, Event.prompt_inserted chat_id :: res.2)
    | Except.ok agent =>
      let chat_history := fetch_agent_chat_history env.historyFails st1 task_id
      let messages := if chat_history.isEmpty then AgentInput.single agent_prompt
        else AgentInput.history (chat_history ++ [{ role := "user", content := agent_prompt }])
      match env.kickoff agent messages with
      | Except.error msg =>
        let em := "Agent execution error: " ++ msg
        let res := record_failure env.updateFailureFails st1 chat_id em
        (ExecOutcome.httpError 500 em, res.1,
          Event.prompt_inserted chat_id :: Event.agent_built :: Event.runtime_invoked :: res.2)
      | Except.ok raw =>
        match update_agent_response env.updateSuccessFails env.updateSuccessErrMsg st1 chat_id raw with
        | Except.error msg =>
          let em := "Agent execution error: " ++ msg
          let res := record_failure env.updateFailureFails st1 chat_id em
          (ExecOutcome.httpError 500 em, res.1,
            Event.prompt_inserted chat_id :: Event.agent_built :: Event.runtime_invoked :: res.2)
        | Except.ok st2 =>
          (ExecOutcome.success raw chat_id, st2,
            [Event.prompt_inserted chat_id, Event.agent_built, Event.runtime_invoked,
              Event.response_updated chat_id raw])

/-! ## Concrete fixtures used by the witnesses and counterexamples -/

/-- Concrete `json.loads` collaborator: models the Python parser on exactly
the JSON object strings appearing in the concrete inputs below. -/
def jsonLoadsTable : String → Except Unit PyVal := fun s =>
  if s = "\x7b\"tool_dependency\": \"get_token\"\x7d" then
    Except.ok (.dict [("tool_dependency", .str "get_token")])
  else if s = "\x7b\"extraction_hint\": \"a number\"\x7d" then
    Except.ok (.dict [("extraction_hint", .str "a number")])
  else Except.error ()

/-- Other-variable row with a TOOL_DEPENDENCY-shaped payload but no
`variable_type` key at all. -/
def untaggedToolDepVar : PyDict :=
  [("name", .str "token"), ("description", .str "Auth token"),
   ("data_type", .str "string"),
   ("variables", .dict [("tool_dependency", .str "get_token")])]

/-- Other-variable row with a null `variable_type` and a string payload that
parses to a TOOL_DEPENDENCY shape. -/
def nullTaggedToolDepVar : PyDict :=
  [("name", .str "token"), ("description", .str "Auth token"),
   ("data_type", .str "string"), ("variable_type", PyVal.none),
   ("variables", .str "\x7b\"tool_dependency\": \"get_token\"\x7d")]

/-- Other-variable row explicitly tagged DIRECT_INPUT whose string payload
parses to an extraction-hint shape. -/
def directInputVar : PyDict :=
  [("name", .str "quantity"), ("description", .str "How many"),
   ("data_type", .str "number"), ("variable_type", .str "direct_input"),
   ("variables", .str "\x7b\"extraction_hint\": \"a number\"\x7d")]

/-- Other-variable row whose payload arrives as a raw (non-string) mapping;
`safe_json_load` collapses it to the empty dict. -/
def dictPayloadToolDepVar : PyDict :=
  [("name", .str "token2"), ("variables", .dict [("tool_dependency", .str "x")])]

/-- Sample constructed tool with empty templates. -/
def sampleTool : DynTool :=
  { name := "weather_api", description := "Get weather",
    endpoint_url := "https://api.example.com/weather", http_method := "get",
    headers := .dict [], query_params := .dict [], body := .dict [],
    user_variables := [], other_variables := [] }

/-- HTTP collaborator returning a 304 Not Modified final response. -/
def http304 : HttpRequest → Except String HttpResponse :=
  fun _ => Except.ok { status_code := 304, text := "cached" }

/-- HTTP collaborator returning a 500 final response. -/
def http500 : HttpRequest → Except String HttpResponse :=
  fun _ => Except.ok { status_code := 500, text := "boom" }

/-- HTTP collaborator raising a transport timeout. -/
def httpTimeout : HttpRequest → Except String HttpResponse :=
  fun _ => Except.error "ReadTimeout: timed out"

/-- Healthy build environment: agent found, no variables, no tools. -/
def benignBuildEnv : BuildEnv :=
  { jsonLoads := fun _ => Except.error (),
    agent_metadata := Except.ok
      { role := "Assistant", goal := "Help the user",
        backstory := "You are helpful.", tools := [] },
    user_variables := [], other_variables := [], task_instructions := "",
    task_tool_selection := Option.none, tools_metadata := fun _ => [] }

/-- Healthy orchestration environment: every store call succeeds and the
runtime returns an answer. -/
def benignOrchEnv : OrchEnv :=
  { build := benignBuildEnv, insertFails := false, insertErrMsg := "",
    historyFails := false,
    kickoff := fun _ _ => Except.ok "Booked 3 seats for you.",
    updateSuccessFails := false, updateSuccessErrMsg := "",
    updateFailureFails := false }

/-- Store with no chat rows. -/
def emptyStore : Store := { chats := [], nextId := 0 }

/-- Build environment with a backstory, task instructions and nothing else. -/
def c8BuildEnv : BuildEnv :=
  { jsonLoads := fun _ => Except.error (),
    agent_metadata := Except.ok
      { role := "R", goal := "G", backstory := "B", tools := [] },
    user_variables := [], other_variables := [],
    task_instructions := "Do the steps.",
    task_tool_selection := Option.none, tools_metadata := fun _ => [] }

/-- Agent produced by a build in `c8BuildEnv`. -/
def c8Agent : Agent :=
  { role := "R", goal := "G",
    backstory := "B" ++ "" ++ ("\n\nTASK INSTRUCTIONS:\n" ++ "Do the steps."),
    tools := [] }

/-! ## Lemmas about the placeholder scanner -/

theorem aux_nil (m u : List (String × String)) : replaceVarsAux m u [] = [] := by
  simp [replaceVarsAux]

theorem aux_not_lbrace (m u : List (String × String)) (c : Char) (rest : List Char)
    (hc : ¬ c = '{') : replaceVarsAux m u (c :: rest) = c :: replaceVarsAux m u rest := by
  simp [replaceVarsAux, hc]

theorem aux_no_match (m u : List (String × String)) (rest : List Char)
    (hc : ¬(rest.takeWhile isWordChar ≠ [] ∧ (rest.dropWhile isWordChar).head? = Option.some '}')) :
    replaceVarsAux m u ('{' :: rest) = '{' :: replaceVarsAux m u rest := by
  simp only [replaceVarsAux, if_true]
  rw [dif_neg hc]

theorem aux_match_some (m u : List (String × String)) (rest : List Char) (v : String)
    (hcond : rest.takeWhile isWordChar ≠ [] ∧ (rest.dropWhile isWordChar).head? = Option.some '}')
    (hlk : replacerLookup m u (String.mk (rest.takeWhile isWordChar)) = Option.some v) :
    replaceVarsAux m u ('{' :: rest) =
      v.data ++ replaceVarsAux m u (rest.dropWhile isWordChar).tail := by
  simp only [replaceVarsAux, if_true]
  rw [dif_pos hcond, hlk]

theorem aux_match_none (m u : List (String × String)) (rest : List Char)
    (hcond : rest.takeWhile isWordChar ≠ [] ∧ (rest.dropWhile isWordChar).head? = Option.some '}')
    (hlk : replacerLookup m u (String.mk (rest.takeWhile isWordChar)) = Option.none) :
    replaceVarsAux m u ('{' :: rest) =
      '{' :: (rest.takeWhile isWordChar ++ '}' :: replaceVarsAux m u (rest.dropWhile isWordChar).tail) := by
  simp only [replaceVarsAux, if_true]
  rw [dif_pos hcond, hlk]

theorem replaceVarsAux_congr (m u m' u' : List (String × String))
    (hl : ∀ x, replacerLookup m u x = replacerLookup m' u' x) (cs : List Char) :
    replaceVarsAux m u cs = replaceVarsAux m' u' cs := by
  refine replaceVarsAux.induct m u
    (fun cs => replaceVarsAux m u cs = replaceVarsAux m' u' cs) ?_ ?_ ?_ ?_ ?_ cs
  · show replaceVarsAux m u [] = replaceVarsAux m' u' []
    rw [aux_nil, aux_nil]
  · intro rest hcond v hlk ih
    have ih' : replaceVarsAux m u (rest.dropWhile isWordChar).tail =
        replaceVarsAux m' u' (rest.dropWhile isWordChar).tail := ih
    show replaceVarsAux m u ('{' :: rest) = replaceVarsAux m' u' ('{' :: rest)
    rw [aux_match_some m u rest v hcond hlk,
      aux_match_some m' u' rest v hcond ((hl _).symm.trans hlk), ih']
  · intro rest hcond hlk ih
    have ih' : replaceVarsAux m u (rest.dropWhile isWordChar).tail =
        replaceVarsAux m' u' (rest.dropWhile isWordChar).tail := ih
    show replaceVarsAux m u ('{' :: rest) = replaceVarsAux m' u' ('{' :: rest)
    rw [aux_match_none m u rest hcond hlk,
      aux_match_none m' u' rest hcond ((hl _).symm.trans hlk), ih']
  · intro rest hc ih
    have ih' : replaceVarsAux m u rest = replaceVarsAux m' u' rest := ih
    show replaceVarsAux m u ('{' :: rest) = replaceVarsAux m' u' ('{' :: rest)
    rw [aux_no_match m u rest hc, aux_no_match m' u' rest hc, ih']
  · intro c rest hc ih
    have ih' : replaceVarsAux m u rest = replaceVarsAux m' u' rest := ih
    show replaceVarsAux m u (c :: rest) = replaceVarsAux m' u' (c :: rest)
    rw [aux_not_lbrace m u c rest hc, aux_not_lbrace m' u' c rest hc, ih']

theorem hpt_cons_eq (c : Char) (rest : List Char) :
    hasPlaceholderToken (c :: rest) =
      if c = '{' ∧ rest.takeWhile isWordChar ≠ [] ∧
          (rest.dropWhile isWordChar).head? = Option.some '}' then true
      else hasPlaceholderToken rest := rfl

theorem replaceVarsAux_empty_id (cs : List Char) : replaceVarsAux [] [] cs = cs := by
  refine replaceVarsAux.induct [] []
    (fun cs => replaceVarsAux [] [] cs = cs) ?_ ?_ ?_ ?_ ?_ cs
  · show replaceVarsAux [] [] [] = []
    exact aux_nil [] []
  · intro rest hcond v hlk ih
    exact absurd hlk (by simp [replacerLookup, lookupAssoc])
  · intro rest hcond hlk ih
    have ih' : replaceVarsAux [] [] (rest.dropWhile isWordChar).tail =
        (rest.dropWhile isWordChar).tail := ih
    show replaceVarsAux [] [] ('{' :: rest) = '{' :: rest
    rw [aux_match_none [] [] rest hcond hlk, ih']
    have hd : '}' :: (rest.dropWhile isWordChar).tail = rest.dropWhile isWordChar := by
      cases hdw : rest.dropWhile isWordChar with
      | nil =>
        have h2 := hcond.2
        rw [hdw] at h2
        simp at h2
      | cons a t =>
        have h2 := hcond.2
        rw [hdw] at h2
        simp only [List.head?_cons, Option.some.injEq] at h2
        rw [List.tail_cons, h2]
    rw [hd, List.takeWhile_append_dropWhile]
  · intro rest hc ih
    have ih' : replaceVarsAux [] [] rest = rest := ih
    show replaceVarsAux [] [] ('{' :: rest) = '{' :: rest
    rw [aux_no_match [] [] rest hc, ih']
  · intro c rest hc ih
    have ih' : replaceVarsAux [] [] rest = rest := ih
    show replaceVarsAux [] [] (c :: rest) = c :: rest
    rw [aux_not_lbrace [] [] c rest hc, ih']

theorem replaceVarsAux_no_token (m u : List (String × String)) (cs : List Char)
    (htok : hasPlaceholderToken cs = false) : replaceVarsAux m u cs = cs := by
  refine replaceVarsAux.induct m u
    (fun cs => hasPlaceholderToken cs = false → replaceVarsAux m u cs = cs) ?_ ?_ ?_ ?_ ?_ cs htok
  · intro _
    exact aux_nil m u
  · intro rest hcond v hlk ih ht
    rw [hpt_cons_eq, if_pos ⟨rfl, hcond.1, hcond.2⟩] at ht
    exact absurd ht (by simp)
  · intro rest hcond hlk ih ht
    rw [hpt_cons_eq, if_pos ⟨rfl, hcond.1, hcond.2⟩] at ht
    exact absurd ht (by simp)
  · intro rest hc ih ht
    have hcond' : ¬('{' = '{' ∧ rest.takeWhile isWordChar ≠ [] ∧
        (rest.dropWhile isWordChar).head? = Option.some '}') := by
      intro hh
      exact hc ⟨hh.2.1, hh.2.2⟩
    rw [hpt_cons_eq, if_neg hcond'] at ht
    have ih' : hasPlaceholderToken rest = false → replaceVarsAux m u rest = rest := ih
    show replaceVarsAux m u ('{' :: rest) = '{' :: rest
    rw [aux_no_match m u rest hc, ih' ht]
  · intro c rest hc ih ht
    have hcond' : ¬(c = '{' ∧ rest.takeWhile isWordChar ≠ [] ∧
        (rest.dropWhile isWordChar).head? = Option.some '}') := by
      intro hh
      exact hc hh.1
    rw [hpt_cons_eq, if_neg hcond'] at ht
    have ih' : hasPlaceholderToken rest = false → replaceVarsAux m u rest = rest := ih
    show replaceVarsAux m u (c :: rest) = c :: rest
    rw [aux_not_lbrace m u c rest hc, ih' ht]

theorem replaceVarsAux_front_scan (m u : List (String × String)) (pre : List Char)
    (hpre : '{' ∉ pre) (suf : List Char) :
    replaceVarsAux m u (pre ++ suf) = pre ++ replaceVarsAux m u suf := by
  induction pre with
  | nil => simp
  | cons c p ih =>
    have hc : ¬ c = '{' := by
      intro hh
      exact hpre (by rw [hh]; exact List.mem_cons_self '{' p)
    rw [List.cons_append, aux_not_lbrace m u c (p ++ suf) hc,
      ih (fun hm => hpre (List.mem_cons_of_mem c hm)), List.cons_append]

theorem takeWhile_word_prefix (name post : List Char) (hw : ∀ c ∈ name, isWordChar c) :
    (name ++ '}' :: post).takeWhile isWordChar = name ∧
    (name ++ '}' :: post).dropWhile isWordChar = '}' :: post := by
  induction name with
  | nil => refine ⟨?_, ?_⟩ <;> simp [List.takeWhile, List.dropWhile, isWordChar]
  | cons c n ih =>
    have hc : isWordChar c = true := hw c (List.mem_cons_self c n)
    obtain ⟨ih1, ih2⟩ := ih (fun d hd => hw d (List.mem_cons_of_mem c hd))
    refine ⟨?_, ?_⟩ <;>
      simp [List.takeWhile_cons, List.dropWhile_cons, hc, ih1, ih2]

theorem replaceVarsAux_placeholder (m u : List (String × String)) (name post : List Char)
    (hne : name ≠ []) (hw : ∀ c ∈ name, isWordChar c) :
    replaceVarsAux m u ('{' :: (name ++ '}' :: post)) =
      (match replacerLookup m u (String.mk name) with
       | Option.some v => v.data ++ replaceVarsAux m u post
       | Option.none => '{' :: (name ++ '}' :: replaceVarsAux m u post)) := by
  obtain ⟨ht, hd⟩ := takeWhile_word_prefix name post hw
  have hcond : (name ++ '}' :: post).takeWhile isWordChar ≠ [] ∧
      ((name ++ '}' :: post).dropWhile isWordChar).head? = Option.some '}' := by
    rw [ht, hd]
    exact ⟨hne, rfl⟩
  cases hlk : replacerLookup m u (String.mk name) with
  | some v =>
    rw [aux_match_some m u (name ++ '}' :: post) v hcond (by rw [ht]; exact hlk), hd]
    simp
  | none =>
    rw [aux_match_none m u (name ++ '}' :: post) hcond (by rw [ht]; exact hlk), ht, hd]
    simp

theorem lookupAssoc_append (m u : List (String × String)) (x : String) :
    lookupAssoc (m ++ u) x =
      match lookupAssoc m x with
      | Option.some v => Option.some v
      | Option.none => lookupAssoc u x := by
  induction m with
  | nil => simp [lookupAssoc]
  | cons kv m ih =>
    obtain ⟨k, v⟩ := kv
    by_cases h : k = x <;> simp [lookupAssoc, h, ih]

theorem replacerLookup_merge (m u : List (String × String)) (x : String) :
    replacerLookup m u x = replacerLookup (m ++ u) [] x := by
  unfold replacerLookup
  rw [lookupAssoc_append]
  cases lookupAssoc m x with
  | some v => rfl
  | none => cases lookupAssoc u x <;> rfl

/-! ## Lemmas about the tree resolver -/

theorem replace_variables_empty_id (s : String) : replace_variables [] [] s = s := by
  unfold replace_variables
  rw [replaceVarsAux_empty_id]

theorem resolve_placeholders_eq (m u : List (String × String)) (v : PyVal) :
    resolve_placeholders m u v =
      match v with
      | PyVal.dict fs => PyVal.dict (resolve_fields m u fs)
      | v => v := by
  cases v <;> simp [resolve_placeholders]

theorem resolve_fields_nil (m u : List (String × String)) :
    resolve_fields m u [] = [] := by
  simp [resolve_fields]

theorem resolve_fields_cons_str (m u : List (String × String)) (k s : String)
    (rest : List (String × PyVal)) :
    resolve_fields m u ((k, PyVal.str s) :: rest) =
      (k, if hasLB s ∧ hasRB s then PyVal.str (replace_variables m u s)
          else PyVal.str s) :: resolve_fields m u rest := by
  simp [resolve_fields]

theorem resolve_fields_cons_dict (m u : List (String × String)) (k : String)
    (f rest : List (String × PyVal)) :
    resolve_fields m u ((k, PyVal.dict f) :: rest) =
      (k, resolve_placeholders m u (PyVal.dict f)) :: resolve_fields m u rest := by
  simp [resolve_fields]

theorem resolve_fields_cons_other (m u : List (String × String)) (k : String)
    (v : PyVal) (rest : List (String × PyVal))
    (hns : ∀ s, v = PyVal.str s → False) (hnd : ∀ f, v = PyVal.dict f → False) :
    resolve_fields m u ((k, v) :: rest) = (k, v) :: resolve_fields m u rest := by
  cases v with
  | str s => exact absurd rfl (hns s)
  | dict f => exact absurd rfl (hnd f)
  | int n => simp [resolve_fields]
  | bool b => simp [resolve_fields]
  | none => simp [resolve_fields]
  | list xs => simp [resolve_fields]

theorem resolve_fields_empty_id (fs : List (String × PyVal)) :
    resolve_fields [] [] fs = fs := by
  refine resolve_fields.induct [] []
    (fun t => resolve_placeholders [] [] t = t)
    (fun fs => resolve_fields [] [] fs = fs) ?_ ?_ ?_ ?_ ?_ ?_ fs
  · intro fs ih
    have ih' : resolve_fields [] [] fs = fs := ih
    show resolve_placeholders [] [] (PyVal.dict fs) = PyVal.dict fs
    rw [resolve_placeholders_eq]
    exact congrArg PyVal.dict ih'
  · intro t hnd
    show resolve_placeholders [] [] t = t
    rw [resolve_placeholders_eq]
    cases t with
    | dict f => exact absurd rfl (hnd f)
    | str s => rfl
    | int n => rfl
    | bool b => rfl
    | none => rfl
    | list xs => rfl
  · show resolve_fields [] [] [] = []
    exact resolve_fields_nil [] []
  · intro k s rest ih
    have ih' : resolve_fields [] [] rest = rest := ih
    show resolve_fields [] [] ((k, PyVal.str s) :: rest) = (k, PyVal.str s) :: rest
    rw [resolve_fields_cons_str, ih']
    simp [replace_variables_empty_id]
  · intro k f rest ih1 ih2
    have ih1' : resolve_placeholders [] [] (PyVal.dict f) = PyVal.dict f := ih1
    have ih2' : resolve_fields [] [] rest = rest := ih2
    show resolve_fields [] [] ((k, PyVal.dict f) :: rest) = (k, PyVal.dict f) :: rest
    rw [resolve_fields_cons_dict, ih1', ih2']
  · intro k v rest hns hnd ih
    have ih' : resolve_fields [] [] rest = rest := ih
    show resolve_fields [] [] ((k, v) :: rest) = (k, v) :: rest
    rw [resolve_fields_cons_other [] [] k v rest hns hnd, ih']

theorem resolve_placeholders_empty_id (t : PyVal) : resolve_placeholders [] [] t = t := by
  rw [resolve_placeholders_eq]
  cases t <;> simp [resolve_fields_empty_id]

/-! ## Claim theorems -/

/-- C2: placeholder resolution tries the call-time variable mappings first and
the user variables second, so the call-time value always wins: resolving any
string against the pair of sources equals resolving it against the single
merged binding list in which every call-time mapping precedes every user
variable (first match wins); and on the spec's example, the template
`/weather/\x7bcity_id\x7d` with call-time binding `call-BLR` and conflicting
user variable `user-DEL` resolves to `/weather/call-BLR`. -/
theorem C2_call_time_priority :
    (∀ (m u : List (String × String)) (s : String),
      replace_variables m u s = replace_variables (m ++ u) [] s) ∧
    replace_variables [("city_id", "call-BLR")] [("city_id", "user-DEL")]
        "/weather/{city_id}" = "/weather/call-BLR" := by
  constructor
  · intro m u s
    unfold replace_variables
    rw [replaceVarsAux_congr m u (m ++ u) [] (replacerLookup_merge m u) s.data]
  · simp [replace_variables, replaceVarsAux, replacerLookup, lookupAssoc, isWordChar,
      List.takeWhile, List.dropWhile]

/-- C3: a placeholder whose identifier is bound neither in the call-time
mappings nor in the user variables is left as the literal `\x7bidentifier\x7d`
text in the resolved output, and resolution never raises (the embedding is a
total function).  Stated for an arbitrary occurrence: any template of the
form `pre\x7bname\x7dpost` whose prefix holds no further left braces keeps the
placeholder verbatim while the rest of the string is resolved normally. -/
theorem C3_unresolved_passthrough (m u : List (String × String)) (pre name post : String)
    (hpre : '{' ∉ pre.data) (hname : name.data ≠ [])
    (hword : ∀ c ∈ name.data, isWordChar c)
    (hm : lookupAssoc m name = Option.none) (hu : lookupAssoc u name = Option.none) :
    replace_variables m u (pre ++ "\x7b" ++ name ++ "\x7d" ++ post) =
      pre ++ "\x7b" ++ name ++ "\x7d" ++ replace_variables m u post := by
  have hlk : replacerLookup m u (String.mk name.data) = Option.none := by
    show replacerLookup m u name = Option.none
    simp [replacerLookup, hm, hu]
  have hdata : (pre ++ "\x7b" ++ name ++ "\x7d" ++ post).data =
      pre.data ++ ('{' :: (name.data ++ '}' :: post.data)) := by
    simp [String.data_append]
  have hlist : replaceVarsAux m u (pre.data ++ ('{' :: (name.data ++ '}' :: post.data))) =
      pre.data ++ ('{' :: (name.data ++ '}' :: replaceVarsAux m u post.data)) := by
    rw [replaceVarsAux_front_scan m u pre.data hpre,
      replaceVarsAux_placeholder m u name.data post.data hname hword, hlk]
  have hdata2 : (pre ++ "\x7b" ++ name ++ "\x7d" ++ replace_variables m u post).data =
      pre.data ++ ('{' :: (name.data ++ '}' :: replaceVarsAux m u post.data)) := by
    simp [String.data_append, replace_variables]
  show String.mk (replaceVarsAux m u (pre ++ "\x7b" ++ name ++ "\x7d" ++ post).data) =
    pre ++ "\x7b" ++ name ++ "\x7d" ++ replace_variables m u post
  rw [hdata, hlist, ← hdata2]

/-- Witness for C3: `/item/\x7bsku\x7d` with no binding for `sku` resolves to
itself. -/
theorem C3_unresolved_passthrough_witness :
    ('{' ∉ "/item/".data ∧ "sku".data ≠ [] ∧ (∀ c ∈ "sku".data, isWordChar c) ∧
      lookupAssoc [("a", "1")] "sku" = Option.none ∧
      lookupAssoc [("b", "2")] "sku" = Option.none) ∧
    replace_variables [("a", "1")] [("b", "2")] ("/item/" ++ "\x7b" ++ "sku" ++ "\x7d" ++ "") =
      "/item/" ++ "\x7b" ++ "sku" ++ "\x7d" ++ replace_variables [("a", "1")] [("b", "2")] "" :=
  ⟨⟨by decide, by decide, by decide, by decide, by decide⟩,
    C3_unresolved_passthrough [("a", "1")] [("b", "2")] "/item/" "sku" ""
      (by decide) (by decide) (by decide) (by decide) (by decide)⟩

/-- C9: placeholder resolution is the identity in two cases: resolving any
template tree against the empty binding pair returns the tree unchanged, and
resolving any string containing no `\x7b\w+\x7d` token returns the string
unchanged for arbitrary bindings. -/
theorem C9_resolution_identity :
    (∀ (t : PyVal), resolve_placeholders [] [] t = t) ∧
    (∀ (m u : List (String × String)) (s : String),
      hasPlaceholderToken s.data = false → replace_variables m u s = s) := by
  constructor
  · exact resolve_placeholders_empty_id
  · intro m u s h
    unfold replace_variables
    rw [replaceVarsAux_no_token m u s.data h]

/-- Witness for C9: a token-free string and a concrete template tree. -/
theorem C9_resolution_identity_witness :
    (hasPlaceholderToken "/health".data = false) ∧
    replace_variables [("a", "b")] [("c", "d")] "/health" = "/health" ∧
    resolve_placeholders [] [] (PyVal.dict [("q", PyVal.str "{x}")]) =
      PyVal.dict [("q", PyVal.str "{x}")] :=
  ⟨by decide,
    C9_resolution_identity.2 [("a", "b")] [("c", "d")] "/health" (by decide),
    C9_resolution_identity.1 (PyVal.dict [("q", PyVal.str "{x}")])⟩

/-- C10: `safe_json_load` is total (every branch of the embedding returns;
the Python handler catches every exception of the guarded block) and maps
every dict input to the empty dict — the string-lowercasing emptiness test
runs first and raises `AttributeError` on dicts, the handler returns `\x7b\x7d`,
and hence the `isinstance(value, dict)` branch that would return the input
mapping is unreachable for non-empty mappings: a non-empty mapping never
comes back out. -/
theorem C10_safe_json_load_mapping :
    (∀ (jsonLoads : String → Except Unit PyVal) (fields : List (String × PyVal)),
      safe_json_load jsonLoads (PyVal.dict fields) = PyVal.dict []) ∧
    (∀ (jsonLoads : String → Except Unit PyVal) (fields : List (String × PyVal)),
      fields ≠ [] → safe_json_load jsonLoads (PyVal.dict fields) ≠ PyVal.dict fields) := by
  refine ⟨fun jl fields => rfl, fun jl fields hne h => ?_⟩
  rw [show safe_json_load jl (PyVal.dict fields) = PyVal.dict [] from rfl] at h
  injection h with h'
  exact hne h'.symm

/-- Witness for C10: a concrete non-empty mapping is not returned. -/
theorem C10_safe_json_load_mapping_witness :
    ([("a", PyVal.str "b")] ≠ ([] : List (String × PyVal))) ∧
    safe_json_load (fun _ => Except.error ()) (PyVal.dict [("a", PyVal.str "b")]) ≠
      PyVal.dict [("a", PyVal.str "b")] :=
  ⟨by simp, C10_safe_json_load_mapping.2 (fun _ => Except.error ()) [("a", PyVal.str "b")]
    (by simp)⟩

/-- Counterexample to C5: an other-variable record with no `variable_type`
key at all and a payload containing a `tool_dependency` key classifies as
CONTEXTUAL, not TOOL_DEPENDENCY — `var.get('variable_type', 'contextual')`
defaults the absent tag to `'contextual'` before any payload inference can
run. -/
theorem C5_counterexample :
    classify_other_variable jsonLoadsTable untaggedToolDepVar = Except.ok VarBucket.contextual ∧
    classify_other_variable jsonLoadsTable untaggedToolDepVar ≠
      Except.ok VarBucket.tool_dependency := by
  constructor
  · rfl
  · intro h
    rw [show classify_other_variable jsonLoadsTable untaggedToolDepVar =
      Except.ok VarBucket.contextual from rfl] at h
    injection h with h'
    exact absurd h' (by decide)

/-- C5 as amended: a record whose `variable_type` key is absent classifies as
CONTEXTUAL regardless of its payload; payload-shape inference runs only when
the tag is present but none of the three recognised strings (for example a
null tag), and then classifies by truthiness of the loaded payload's
`tool_dependency` entry, else of its `extraction_hint` entry, else
CONTEXTUAL. -/
theorem C5_amended_classification :
    ∀ (jsonLoads : String → Except Unit PyVal) (var : PyDict),
      (pyHasKey var "variable_type" = false →
        classify_other_variable jsonLoads var = Except.ok VarBucket.contextual) ∧
      (∀ (d : List (String × PyVal)),
        isStrEq (pyGetD var "variable_type" (PyVal.str "contextual")) "contextual" = false →
        isStrEq (pyGetD var "variable_type" (PyVal.str "contextual")) "direct_input" = false →
        isStrEq (pyGetD var "variable_type" (PyVal.str "contextual")) "tool_dependency" = false →
        safe_json_load jsonLoads (pyGetD var "variables" (PyVal.dict [])) = PyVal.dict d →
        classify_other_variable jsonLoads var = Except.ok
          (if pyTruthy (pyGetD d "tool_dependency" PyVal.none) then VarBucket.tool_dependency
           else if pyTruthy (pyGetD d "extraction_hint" PyVal.none) then VarBucket.direct_input
           else VarBucket.contextual)) := by
  intro jl var
  constructor
  · intro hnk
    have hdef : pyGetD var "variable_type" (PyVal.str "contextual") = PyVal.str "contextual" := by
      unfold pyGetD
      unfold pyHasKey at hnk
      cases hf : assocFind var "variable_type" with
      | some v => rw [hf] at hnk; simp at hnk
      | none => rfl
    simp [classify_other_variable, hdef, isStrEq]
  · intro d h1 h2 h3 hload
    simp only [classify_other_variable, h1, h2, h3, hload, pyAttrGet,
      Bool.false_eq_true, if_false]
    by_cases htd : pyTruthy (pyGetD d "tool_dependency" PyVal.none)
    · simp [htd]
    · by_cases heh : pyTruthy (pyGetD d "extraction_hint" PyVal.none)
      · simp [htd, heh]
      · simp [htd, heh]

/-- Witness for the amended C5: a keyless record stays CONTEXTUAL, and a
null-tagged record whose string payload parses to a `tool_dependency` shape
is inferred TOOL_DEPENDENCY. -/
theorem C5_amended_classification_witness :
    (pyHasKey dictPayloadToolDepVar "variable_type" = false ∧
      classify_other_variable jsonLoadsTable dictPayloadToolDepVar =
        Except.ok VarBucket.contextual) ∧
    (safe_json_load jsonLoadsTable (pyGetD nullTaggedToolDepVar "variables" (PyVal.dict [])) =
        PyVal.dict [("tool_dependency", PyVal.str "get_token")] ∧
      classify_other_variable jsonLoadsTable nullTaggedToolDepVar =
        Except.ok VarBucket.tool_dependency) := by
  refine ⟨⟨rfl, (C5_amended_classification jsonLoadsTable dictPayloadToolDepVar).1 rfl⟩,
    ⟨by rfl, ?_⟩⟩
  have h := (C5_amended_classification jsonLoadsTable nullTaggedToolDepVar).2
    [("tool_dependency", PyVal.str "get_token")] rfl rfl rfl (by rfl)
  rw [h]
  rfl

theorem except_pure_eq {e a : Type} (x : a) : (pure x : Except e a) = Except.ok x := rfl

theorem except_bind_ok {e a b : Type} (x : a) (f : a → Except e b) :
    (Except.ok x >>= f : Except e b) = f x := rfl

theorem except_bind_err {e a b : Type} (x : e) (f : a → Except e b) :
    (Except.error x >>= f : Except e b) = Except.error x := rfl

theorem except_map_ok {e a b : Type} (f : a → b) (x : a) :
    (f <$> Except.ok x : Except e b) = Except.ok (f x) := rfl

theorem except_map_err {e a b : Type} (f : a → b) (x : e) :
    (f <$> Except.error x : Except e b) = Except.error x := rfl

/-- Helper: a variable whose loaded payload is falsy, or whose payload has a
truthy `tool_dependency` entry, leaves the `_enhance_description`
accumulator unchanged. -/
theorem enhance_step_skip (jl : String → Except Unit PyVal) (acc : String) (v : PyDict)
    (hv : pyTruthy (safe_json_load jl (pyGetD v "variables" (PyVal.dict []))) = false ∨
      ∃ td, pyAttrGet (safe_json_load jl (pyGetD v "variables" (PyVal.dict [])))
          "tool_dependency" = Except.ok td ∧ pyTruthy td = true) :
    enhance_step jl acc v = Except.ok acc := by
  rcases hv with hfalsy | ⟨td, htd, htrue⟩
  · simp [enhance_step, hfalsy, except_pure_eq]
  · by_cases hvd : pyTruthy (safe_json_load jl (pyGetD v "variables" (PyVal.dict [])))
    · simp [enhance_step, hvd, htd, htrue, except_bind_ok, except_pure_eq]
    · simp [enhance_step, hvd, except_pure_eq]

/-- C7 as amended: `_enhance_description` never consults the variable_type
tag; a variable contributes an option line exactly when its loaded payload
is truthy and the payload\x27s `tool_dependency` entry is not truthy.  In
particular every variable whose payload is falsy or TOOL_DEPENDENCY-shaped
contributes nothing, so a list of only such variables leaves the
description unchanged — but DIRECT_INPUT-shaped payloads do contribute
(see the counterexample). -/
theorem C7_amended_description :
    ∀ (jsonLoads : String → Except Unit PyVal) (description : String) (vars : List PyDict),
      (∀ v ∈ vars,
        pyTruthy (safe_json_load jsonLoads (pyGetD v "variables" (PyVal.dict []))) = false ∨
        ∃ td, pyAttrGet (safe_json_load jsonLoads (pyGetD v "variables" (PyVal.dict [])))
            "tool_dependency" = Except.ok td ∧ pyTruthy td = true) →
      enhance_description jsonLoads description vars = Except.ok description := by
  intro jl description vars h
  have key : ∀ (vs : List PyDict),
      (∀ v ∈ vs,
        pyTruthy (safe_json_load jl (pyGetD v "variables" (PyVal.dict []))) = false ∨
        ∃ td, pyAttrGet (safe_json_load jl (pyGetD v "variables" (PyVal.dict [])))
            "tool_dependency" = Except.ok td ∧ pyTruthy td = true) →
      ∀ acc, vs.foldlM (enhance_step jl) acc = Except.ok acc := by
    intro vs
    induction vs with
    | nil => intro _ acc; rfl
    | cons v rest ih =>
      intro hp acc
      have hstep := enhance_step_skip jl acc v (hp v (List.mem_cons_self v rest))
      show (enhance_step jl acc v >>= fun b' => rest.foldlM (enhance_step jl) b') =
        Except.ok acc
      rw [hstep]
      show rest.foldlM (enhance_step jl) acc = Except.ok acc
      exact ih (fun w hw => hp w (List.mem_cons_of_mem v hw)) acc
  have hfold := key vars h dynamic_variables_header
  simp [enhance_description, hfold, except_bind_ok]

/-- Witness for the amended C7: a raw-dict payload (collapsed by
`safe_json_load`) and a truthy tool-dependency payload together leave the
description unchanged. -/
theorem C7_amended_description_witness :
    ((∀ v ∈ [dictPayloadToolDepVar, nullTaggedToolDepVar],
      pyTruthy (safe_json_load jsonLoadsTable (pyGetD v "variables" (PyVal.dict []))) = false ∨
      ∃ td, pyAttrGet (safe_json_load jsonLoadsTable (pyGetD v "variables" (PyVal.dict [])))
          "tool_dependency" = Except.ok td ∧ pyTruthy td = true)) ∧
    enhance_description jsonLoadsTable "Get weather"
      [dictPayloadToolDepVar, nullTaggedToolDepVar] = Except.ok "Get weather" := by
  have hyp : ∀ v ∈ [dictPayloadToolDepVar, nullTaggedToolDepVar],
      pyTruthy (safe_json_load jsonLoadsTable (pyGetD v "variables" (PyVal.dict []))) = false ∨
      ∃ td, pyAttrGet (safe_json_load jsonLoadsTable (pyGetD v "variables" (PyVal.dict [])))
          "tool_dependency" = Except.ok td ∧ pyTruthy td = true := by
    intro v hv
    rcases List.mem_cons.mp hv with h1 | h2
    · subst h1
      left
      rfl
    · rcases List.mem_cons.mp h2 with h3 | h4
      · subst h3
        right
        exact ⟨PyVal.str "get_token", by rfl, rfl⟩
      · cases h4
  exact ⟨hyp, C7_amended_description jsonLoadsTable "Get weather"
    [dictPayloadToolDepVar, nullTaggedToolDepVar] hyp⟩

/-- Counterexample to C7: an explicitly tagged DIRECT_INPUT variable whose
payload parses to an extraction-hint shape DOES contribute an option line
to the tool description — `_enhance_description` ignores `variable_type`
and only filters on a truthy `tool_dependency` payload entry. -/
theorem C7_counterexample :
    enhance_description jsonLoadsTable "Get weather" [directInputVar] =
      Except.ok ("Get weather" ++ dynamic_variables_header ++
        "- quantity: Choose from [\x27extraction_hint\x27] based on user request\n") ∧
    enhance_description jsonLoadsTable "Get weather" [directInputVar] ≠
      Except.ok "Get weather" := by
  constructor
  · rfl
  · intro h
    rw [show enhance_description jsonLoadsTable "Get weather" [directInputVar] =
      Except.ok ("Get weather" ++ dynamic_variables_header ++
        "- quantity: Choose from [\x27extraction_hint\x27] based on user request\n") from rfl] at h
    injection h with h'
    exact absurd h' (by decide)

/-- Counterexample to C4: a final 3xx status (here 304) is a non-2xx
response, yet `requests.Response.raise_for_status` raises only for 4xx/5xx,
so `_run` returns the raw body text, not an `"API call failed: "` string. -/
theorem C4_counterexample :
    run_tool http304 sampleTool [] = "cached" ∧
    List.isPrefixOf "API call failed: ".data (run_tool http304 sampleTool []).data = false := by
  constructor
  · rfl
  · rw [show run_tool http304 sampleTool [] = "cached" from rfl]
    decide

/-- C4 as amended: on a transport exception, and on every 4xx/5xx final
status, the invocation returns a string prefixed `"API call failed: "`;
every other final status (2xx and 3xx) returns the response body.  The
embedding of `_run` is a total function into `String`, so no invocation
raises out of the boundary. -/
theorem C4_amended_failure_isolation :
    ∀ (http : HttpRequest → Except String HttpResponse) (tool : DynTool)
      (variable_mappings : List (String × String)),
      (∀ e, http (toolRequest tool variable_mappings) = Except.error e →
        run_tool http tool variable_mappings = "API call failed: " ++ e) ∧
      (∀ resp, http (toolRequest tool variable_mappings) = Except.ok resp →
        ((400 ≤ resp.status_code ∧ resp.status_code < 600) →
          ∃ msg, run_tool http tool variable_mappings = "API call failed: " ++ msg) ∧
        ((resp.status_code < 400 ∨ 600 ≤ resp.status_code) →
          run_tool http tool variable_mappings = resp.text)) := by
  intro http tool vm
  constructor
  · intro e he
    unfold run_tool
    rw [he]
  · intro resp hr
    have hrt : run_tool http tool vm =
        (match raise_for_status resp with
         | Except.error e => "API call failed: " ++ e
         | Except.ok r => r.text) := by
      unfold run_tool
      rw [hr]
    constructor
    · intro hst
      cases h45 : raise_for_status resp with
      | error e =>
        rw [hrt, h45]
        exact ⟨e, rfl⟩
      | ok r =>
        exfalso
        unfold raise_for_status at h45
        by_cases h4 : 400 ≤ resp.status_code ∧ resp.status_code < 500
        · rw [if_pos h4] at h45
          exact Except.noConfusion h45
        · have h5 : 500 ≤ resp.status_code ∧ resp.status_code < 600 := by omega
          rw [if_neg h4, if_pos h5] at h45
          exact Except.noConfusion h45
    · intro hlt
      rw [hrt]
      unfold raise_for_status
      rw [if_neg (by omega), if_neg (by omega)]

/-- Witness for the amended C4: a timeout and a 500 both produce the
failure-prefixed string. -/
theorem C4_amended_failure_isolation_witness :
    (httpTimeout (toolRequest sampleTool []) = Except.error "ReadTimeout: timed out" ∧
      run_tool httpTimeout sampleTool [] = "API call failed: " ++ "ReadTimeout: timed out") ∧
    (http500 (toolRequest sampleTool []) = Except.ok { status_code := 500, text := "boom" } ∧
      ∃ msg, run_tool http500 sampleTool [] = "API call failed: " ++ msg) := by
  refine ⟨⟨rfl, (C4_amended_failure_isolation httpTimeout sampleTool []).1 _ rfl⟩,
    ⟨rfl, ((C4_amended_failure_isolation http500 sampleTool []).2 _ rfl).1 (by decide)⟩⟩

/-- C8: every successfully built agent carries the enhanced backstory equal
to the identity backstory, the variable context, and the task-instruction
section concatenated in that fixed order, where the variable context is the
empty string when there are no other-variables and the task section is the
empty string when the task instructions are empty; the composition is fixed
at construction, once per build. -/
theorem C8_backstory_composition :
    ∀ (env : BuildEnv) (task_id agent_id : String) (ag : Agent),
      build_agent_from_metadata env task_id agent_id = Except.ok ag →
      ∃ d vc, env.agent_metadata = Except.ok d ∧
        build_variable_context env.jsonLoads env.other_variables = Except.ok vc ∧
        (env.other_variables = [] → vc = "") ∧
        ag.backstory = d.backstory ++ vc ++
          (if env.task_instructions ≠ "" then
            "\n\nTASK INSTRUCTIONS:\n" ++ env.task_instructions
           else "") := by
  intro env t a ag h
  cases hm : env.agent_metadata with
  | error e =>
    simp only [build_agent_from_metadata, fetch_task_instructions, hm] at h
    exact Except.noConfusion h
  | ok d =>
    simp only [build_agent_from_metadata, fetch_task_instructions, hm] at h
    cases htl : build_tools_from_metadata env.jsonLoads
        (env.tools_metadata (resolve_final_tool_ids env.task_tool_selection d.tools))
        env.user_variables env.other_variables with
    | error e =>
      rw [htl] at h
      exact Except.noConfusion h
    | ok tools =>
      rw [htl] at h
      cases hvc : build_variable_context env.jsonLoads env.other_variables with
      | error e =>
        rw [hvc] at h
        exact Except.noConfusion h
      | ok vc =>
        rw [hvc] at h
        injection h with h2
        refine ⟨d, vc, rfl, rfl, ?_, ?_⟩
        · intro hovs
          rw [hovs] at hvc
          rw [show build_variable_context env.jsonLoads ([] : List PyDict) =
            Except.ok "" from rfl] at hvc
          injection hvc with h3
          exact h3.symm
        · rw [← h2]

/-- Witness for C8 at a concrete healthy build. -/
theorem C8_backstory_composition_witness :
    (build_agent_from_metadata c8BuildEnv "t1" "a1" = Except.ok c8Agent) ∧
    (∃ d vc, c8BuildEnv.agent_metadata = Except.ok d ∧
      build_variable_context c8BuildEnv.jsonLoads c8BuildEnv.other_variables = Except.ok vc ∧
      (c8BuildEnv.other_variables = [] → vc = "") ∧
      c8Agent.backstory = d.backstory ++ vc ++
        (if c8BuildEnv.task_instructions ≠ "" then
          "\n\nTASK INSTRUCTIONS:\n" ++ c8BuildEnv.task_instructions
         else "")) :=
  ⟨rfl, C8_backstory_composition c8BuildEnv "t1" "a1" c8Agent rfl⟩

/-- C6: whenever prompt recording succeeds, the chat-turn row is created
before anything else happens in the request (the trace begins with the
insert event), the row with the prompt is present in the final store, the
response field is successfully updated at most once, and — update failures
being swallowed best-effort — when the store accepts the update it happens
exactly once, writing the `"Error: "` marker against the same row.  (The
error arm is the one every request takes, because the orchestrator calls
`build_agent_from_metadata` with one argument; see `C1_code_bug_eval`.) -/
theorem C6_chat_turn_lifecycle :
    ∀ (env : OrchEnv) (st : Store) (task_id agent_id agent_prompt : String),
      env.insertFails = false →
      (∃ tr, (execute_agent_task env st task_id agent_id agent_prompt).2.2 =
        Event.prompt_inserted st.nextId :: tr) ∧
      (∃ r, r ∈ (execute_agent_task env st task_id agent_id agent_prompt).2.1.chats ∧
        r.id = st.nextId ∧ r.task_id = task_id ∧ r.agent_prompt = agent_prompt) ∧
      ((execute_agent_task env st task_id agent_id agent_prompt).2.2.filter
        isResponseUpdate).length ≤ 1 ∧
      (env.updateFailureFails = false →
        ∃ suffix, ((execute_agent_task env st task_id agent_id agent_prompt).2.2.filter
            isResponseUpdate) =
          [Event.response_updated st.nextId ("Error: " ++ suffix)] ∧
        ∃ r, r ∈ (execute_agent_task env st task_id agent_id agent_prompt).2.1.chats ∧
          r.id = st.nextId ∧ r.agent_prompt = agent_prompt ∧
          r.response = Option.some ("Error: " ++ suffix)) := by
  intro env st t a p hins
  cases hB : env.updateFailureFails with
  | true =>
    have hexec : execute_agent_task env st t a p =
        (ExecOutcome.httpError 500 ("Agent execution error: " ++ arityErrorMsg),
          { chats := st.chats ++ [inserted_row st t a p], nextId := st.nextId + 1 },
          [Event.prompt_inserted st.nextId]) := by
      simp only [execute_agent_task, insert_agent_prompt, hins, Bool.false_eq_true, if_false,
        call_build_agent_from_metadata, record_failure, update_agent_response, hB, if_true]
    rw [hexec]
    refine ⟨⟨[], rfl⟩, ?_, ?_, ?_⟩
    · exact ⟨inserted_row st t a p,
        List.mem_append_right _ (List.mem_cons_self _ _), rfl, rfl, rfl⟩
    · simp [isResponseUpdate]
    · intro hcontra
      exact Bool.noConfusion hcontra
  | false =>
    have hexec : execute_agent_task env st t a p =
        (ExecOutcome.httpError 500 ("Agent execution error: " ++ arityErrorMsg),
          { chats := (st.chats ++ [inserted_row st t a p]).map
              (fun r =>
                if r.id = st.nextId then
                  { r with response :=
                      Option.some ("Error: " ++ ("Agent execution error: " ++ arityErrorMsg)) }
                else r),
            nextId := st.nextId + 1 },
          [Event.prompt_inserted st.nextId,
            Event.response_updated st.nextId
              ("Error: " ++ ("Agent execution error: " ++ arityErrorMsg))]) := by
      simp only [execute_agent_task, insert_agent_prompt, hins, Bool.false_eq_true, if_false,
        call_build_agent_from_metadata, record_failure, update_agent_response, hB, if_true]
    rw [hexec]
    have hmem : inserted_row st t a p ∈ st.chats ++ [inserted_row st t a p] :=
      List.mem_append_right _ (List.mem_cons_self _ _)
    have hm2 := List.mem_map_of_mem (fun r : ChatRow =>
      if r.id = st.nextId then
        { r with response :=
            Option.some ("Error: " ++ ("Agent execution error: " ++ arityErrorMsg)) }
      else r) hmem
    have hrow : (fun r : ChatRow =>
        if r.id = st.nextId then
          { r with response :=
              Option.some ("Error: " ++ ("Agent execution error: " ++ arityErrorMsg)) }
        else r) (inserted_row st t a p) =
        responded_row st t a p ("Error: " ++ ("Agent execution error: " ++ arityErrorMsg)) := by
      simp [inserted_row, responded_row]
    rw [hrow] at hm2
    refine ⟨⟨_, rfl⟩, ?_, ?_, ?_⟩
    · exact ⟨responded_row st t a p ("Error: " ++ ("Agent execution error: " ++ arityErrorMsg)),
        hm2, rfl, rfl, rfl⟩
    · simp [isResponseUpdate]
    · intro _
      refine ⟨"Agent execution error: " ++ arityErrorMsg, by simp [isResponseUpdate], ?_⟩
      exact ⟨responded_row st t a p ("Error: " ++ ("Agent execution error: " ++ arityErrorMsg)),
        hm2, rfl, rfl, rfl⟩

/-- Witness for C6 on a healthy environment and empty store. -/
theorem C6_chat_turn_lifecycle_witness :
    benignOrchEnv.insertFails = false ∧
    ((∃ tr, (execute_agent_task benignOrchEnv emptyStore "t1" "a1" "book 3 seats").2.2 =
        Event.prompt_inserted emptyStore.nextId :: tr) ∧
      (∃ r, r ∈ (execute_agent_task benignOrchEnv emptyStore "t1" "a1" "book 3 seats").2.1.chats ∧
        r.id = emptyStore.nextId ∧ r.task_id = "t1" ∧ r.agent_prompt = "book 3 seats") ∧
      ((execute_agent_task benignOrchEnv emptyStore "t1" "a1" "book 3 seats").2.2.filter
        isResponseUpdate).length ≤ 1 ∧
      (benignOrchEnv.updateFailureFails = false →
        ∃ suffix, ((execute_agent_task benignOrchEnv emptyStore "t1" "a1" "book 3 seats").2.2.filter
            isResponseUpdate) =
          [Event.response_updated emptyStore.nextId ("Error: " ++ suffix)] ∧
        ∃ r, r ∈ (execute_agent_task benignOrchEnv emptyStore "t1" "a1" "book 3 seats").2.1.chats ∧
          r.id = emptyStore.nextId ∧ r.agent_prompt = "book 3 seats" ∧
          r.response = Option.some ("Error: " ++ suffix))) :=
  ⟨rfl, C6_chat_turn_lifecycle benignOrchEnv emptyStore "t1" "a1" "book 3 seats" rfl⟩

/-- Evaluation of the C1 end-to-end scenario on the code as written: with a
healthy store, an existing zero-tool agent, no prior history and a runtime
that would answer, the request `(t1, a1, "book 3 seats")` does NOT return
`\x7bsuccess: true, ...\x7d`; it raises a 500 whose detail reports the
`TypeError` from `orchestrator.py` calling `build_agent_from_metadata`
with a single argument against its two-parameter signature, and the chat
turn is annotated with the `"Error: ..."` marker instead of an answer. -/
theorem C1_code_bug_eval :
    (execute_agent_task benignOrchEnv emptyStore "t1" "a1" "book 3 seats").1 =
      ExecOutcome.httpError 500 ("Agent execution error: " ++ arityErrorMsg) ∧
    ((execute_agent_task benignOrchEnv emptyStore "t1" "a1" "book 3 seats").2.1.chats.map
        (fun r => r.response)) =
      [Option.some ("Error: " ++ ("Agent execution error: " ++ arityErrorMsg))] ∧
    (execute_agent_task benignOrchEnv emptyStore "t1" "a1" "book 3 seats").2.2 =
      [Event.prompt_inserted 0,
        Event.response_updated 0 ("Error: " ++ ("Agent execution error: " ++ arityErrorMsg))] :=
  ⟨rfl, rfl, rfl⟩
